import Mathlib

/-!
Shallow embedding of `src/server.py` (Astronomy-Explorer MCP server).

The server exposes tools that build ADQL query strings against a fixed
remote table, execute them, and normalize the tabular result into a
success/empty/error envelope; two tools additionally run numeric
derivations (Earth comparison, escape velocity) on the first fetched row.

Modelling conventions:
- A fetched tabular result is a `List` of rows; nullable/NaN numeric
  columns are `Option ℚ` (`pd.isna` treats both null and NaN as missing).
- The JSON envelopes `json.dumps({...})` produces are modelled as the
  structure `Envelope` (status, count, message, error_type, data).
- Python floats are modelled as `ℚ` where the code only does field
  arithmetic and comparisons, and as `ℝ` where `math.sqrt` is involved.
- Network execution is out of scope: each tool is split into the pure
  stage before the network call (validation + query construction) and the
  pure stage after it (normalization / derivation on the fetched rows).
-/

namespace AstroExplorer

/-- The single-quote character used by the SQL-literal escaping. -/
def sq : Char := '\''

/-- Wrap a string in single quotes, as the query f-strings do with
`= '...'` around an escaped name. -/
def quoteLit (s : String) : String := sq.toString ++ s ++ sq.toString

/-- `nombre.replace("'", "''")` on a character list: every single quote
is doubled, all other characters are kept. -/
def escapeChars : List Char → List Char
  | [] => []
  | c :: rest =>
      if c = sq then sq :: sq :: escapeChars rest
      else c :: escapeChars rest

/-- Left-to-right non-overlapping replacement of `''` by `'`, the inverse
direction of the escaping (Python `s.replace("''", "'")`). -/
def unescapeChars : List Char → List Char
  | [] => []
  | [c] => [c]
  | c :: c2 :: rest =>
      if c = sq ∧ c2 = sq then sq :: unescapeChars rest
      else c :: unescapeChars (c2 :: rest)

/-- `nombre.replace("'", "''")` — the escaping applied to every
user-supplied string interpolated into a query literal. -/
def escapar (s : String) : String := ⟨escapeChars s.data⟩

/-- The unescaping map (replace each `''` by `'`). -/
def desescapar (s : String) : String := ⟨unescapeChars s.data⟩

/-- Envelope statuses produced by the server. -/
inductive Status where
  | success
  | empty
  | error
  deriving DecidableEq, Repr

/-- The uniform JSON result envelope, with the fields the server emits:
`status`, and conditionally `count`, `message`, `error_type`, `data`. -/
structure Envelope (α : Type) where
  status : Status
  count : Option ℕ := none
  message : Option String := none
  error_type : Option String := none
  data : List α := []
  deriving Repr

/-- `validar_numero_positivo(valor, nombre_parametro, maximo)`: returns
`some message` when the Python function raises `ValueError`, `none` when
it passes. -/
def validar_numero_positivo (valor : ℤ) (nombre_parametro : String)
    (maximo : ℤ) : Option String :=
  if valor ≤ 0 then
    some (nombre_parametro ++ " debe ser mayor a 0, recibido: " ++ toString valor)
  else if valor > maximo then
    some (nombre_parametro ++ " no puede exceder " ++ toString maximo ++
      ", recibido: " ++ toString valor)
  else
    none

/-- The result-normalization step of `ejecutar_query_segura` applied to a
successfully fetched row set `rows` (the `df.empty` test and the two
non-error envelopes it builds). -/
def normalizar {α : Type} (rows : List α) (descripcion : String) : Envelope α :=
  if rows.isEmpty then
    { status := .empty
      message := some ("No se encontraron resultados para " ++ descripcion)
      data := [] }
  else
    { status := .success
      count := some rows.length
      data := rows }

/-- Error envelope returned when a tool catches a `ValueError` from the
validator: `{"status": "error", "message": str(e)}`. -/
def envelopeErrorValidacion {α : Type} (msg : String) : Envelope α :=
  { status := .error, message := some msg }

/-- What a tool does before reaching the network: either it short-circuits
to an error envelope (no query is ever built or submitted), or it produces
the query string it will submit to the TAP service. -/
inductive ToolAction where
  | earlyError (e : Envelope Unit)
  | runQuery (query : String)
  deriving Repr

/-- Python `str.strip()`: drop leading and trailing whitespace. -/
def strip (s : String) : String :=
  ⟨((s.data.dropWhile Char.isWhitespace).reverse.dropWhile Char.isWhitespace).reverse⟩

/-- The Python guard `not nombre or not nombre.strip()`: the name is empty
or consists only of whitespace. -/
def nombre_vacio (s : String) : Bool := s == "" || strip s == ""

/-- Query built by `buscar_datos_exoplaneta` around the escaped name. -/
def queryBuscarDatos (nombre_escapado : String) : String :=
  "SELECT pl_name, pl_masse, pl_rade, pl_orbper, pl_orbsmax, pl_eqt, " ++
  "discoverymethod, disc_year, disc_refname, disc_pubdate, disc_locale, " ++
  "disc_facility, disc_telescope, disc_instrument, sy_dist " ++
  "FROM pscomppars WHERE pl_name = " ++ quoteLit nombre_escapado

/-- Query built by `comparar_con_tierra` around the escaped name. -/
def queryComparar (nombre_escapado : String) : String :=
  "SELECT pl_name, pl_masse, pl_rade, pl_orbper, pl_eqt, sy_dist, " ++
  "discoverymethod, disc_year, disc_locale " ++
  "FROM pscomppars WHERE pl_name = " ++ quoteLit nombre_escapado

/-- Query built by `calcular_velocidad_escape` around the escaped name. -/
def queryCalcular (nombre_escapado : String) : String :=
  "SELECT pl_name, pl_masse, pl_rade, pl_eqt, sy_dist " ++
  "FROM pscomppars WHERE pl_name = " ++ quoteLit nombre_escapado

/-- `buscar_datos_exoplaneta` up to the point where the query is handed to
`ejecutar_query_segura`: empty-name guard, escaping, query construction. -/
def buscar_datos_exoplaneta_fase1 (nombre : String) : ToolAction :=
  if nombre_vacio nombre then
    .earlyError { status := .error, message := some "El nombre no puede estar vacío" }
  else
    .runQuery (queryBuscarDatos (escapar nombre))

/-- `comparar_con_tierra` up to the network call. -/
def comparar_con_tierra_fase1 (nombre : String) : ToolAction :=
  if nombre_vacio nombre then
    .earlyError { status := .error, message := some "El nombre no puede estar vacío" }
  else
    .runQuery (queryComparar (escapar nombre))

/-- `calcular_velocidad_escape` up to the network call. -/
def calcular_velocidad_escape_fase1 (nombre : String) : ToolAction :=
  if nombre_vacio nombre then
    .earlyError { status := .error, message := some "El nombre no puede estar vacío" }
  else
    .runQuery (queryCalcular (escapar nombre))

/-- `listar_exoplanetas_mas_masivos`, with the network modelled by the
row set `fetched` the TAP service would return for its query: validation
(max 500), then normalization of the fetched rows. -/
def listar_exoplanetas_mas_masivos {α : Type} (numero_planetas : ℤ)
    (fetched : List α) : Envelope α :=
  match validar_numero_positivo numero_planetas "numero_planetas" 500 with
  | some msg => envelopeErrorValidacion msg
  | none =>
      normalizar fetched
        ("top " ++ toString numero_planetas ++ " exoplanetas más masivos")

/-- `buscar_planetas_habitables` validation + normalization (max 100). -/
def buscar_planetas_habitables {α : Type} (numero_planetas : ℤ)
    (fetched : List α) : Envelope α :=
  match validar_numero_positivo numero_planetas "numero_planetas" 100 with
  | some msg => envelopeErrorValidacion msg
  | none => normalizar fetched "planetas potencialmente habitables"

/-- `buscar_por_metodo_descubrimiento` validation of `limite` (max 200) +
normalization. -/
def buscar_por_metodo_descubrimiento {α : Type} (metodo : String) (limite : ℤ)
    (fetched : List α) : Envelope α :=
  match validar_numero_positivo limite "limite" 200 with
  | some msg => envelopeErrorValidacion msg
  | none => normalizar fetched ("exoplanetas descubiertos por " ++ metodo)

/-- `if masa_min is not None: condiciones.append(f"pl_masse >= {masa_min}")`. -/
def condMasaMin : Option ℚ → Option String
  | none => none
  | some v => some ("pl_masse >= " ++ toString v)

/-- `if masa_max is not None: condiciones.append(f"pl_masse <= {masa_max}")`. -/
def condMasaMax : Option ℚ → Option String
  | none => none
  | some v => some ("pl_masse <= " ++ toString v)

/-- `if periodo_min is not None: ... f"pl_orbper >= {periodo_min}"`. -/
def condPeriodoMin : Option ℚ → Option String
  | none => none
  | some v => some ("pl_orbper >= " ++ toString v)

/-- `if periodo_max is not None: ... f"pl_orbper <= {periodo_max}"`. -/
def condPeriodoMax : Option ℚ → Option String
  | none => none
  | some v => some ("pl_orbper <= " ++ toString v)

/-- `if distancia_max is not None: ... f"sy_dist <= {distancia_max}"`. -/
def condDistanciaMax : Option ℚ → Option String
  | none => none
  | some v => some ("sy_dist <= " ++ toString v)

/-- `if año_descubrimiento_min is not None: ... f"disc_year >= {...}"`. -/
def condAnioMin : Option ℤ → Option String
  | none => none
  | some v => some ("disc_year >= " ++ toString v)

/-- `if metodo:` — Python truthiness on `Optional[str]`: `None` and the
empty string are both falsy, so no predicate is appended for either. -/
def condMetodo : Option String → Option String
  | none => none
  | some m =>
      if m = "" then none
      else some ("discoverymethod = " ++ quoteLit (escapar m))

/-- `if locale:` — same truthiness test as `condMetodo`. -/
def condLocale : Option String → Option String
  | none => none
  | some l =>
      if l = "" then none
      else some ("disc_locale = " ++ quoteLit (escapar l))

/-- The `condiciones` list built by `busqueda_avanzada`, in the order the
source appends them. -/
def condicionesAvanzada (masa_min masa_max periodo_min periodo_max
    distancia_max : Option ℚ) (anio_min : Option ℤ)
    (metodo locale : Option String) : List String :=
  [condMasaMin masa_min, condMasaMax masa_max,
   condPeriodoMin periodo_min, condPeriodoMax periodo_max,
   condDistanciaMax distancia_max, condAnioMin anio_min,
   condMetodo metodo, condLocale locale].filterMap id

/-- `if año_inicio:` in `timeline_descubrimientos` — Python truthiness on
`Optional[int]`: `None` and `0` are both falsy. -/
def condTimelineInicio : Option ℤ → Option String
  | none => none
  | some y => if y = 0 then none else some ("disc_year >= " ++ toString y)

/-- `if año_fin:` in `timeline_descubrimientos` — same truthiness. -/
def condTimelineFin : Option ℤ → Option String
  | none => none
  | some y => if y = 0 then none else some ("disc_year <= " ++ toString y)

/-- The `condiciones` list built by `timeline_descubrimientos`. -/
def condicionesTimeline (anio_inicio anio_fin : Option ℤ) : List String :=
  [condTimelineInicio anio_inicio, condTimelineFin anio_fin].filterMap id

/-- A catalog row as fetched by `comparar_con_tierra`; nullable/NaN
numeric columns are `Option` (`pd.isna` treats null and NaN alike). -/
structure RowComparar where
  pl_name : String
  pl_masse : Option ℚ
  pl_rade : Option ℚ
  pl_orbper : Option ℚ
  pl_eqt : Option ℚ
  sy_dist : Option ℚ
  discoverymethod : Option String
  disc_year : Option ℤ
  disc_locale : Option String
  deriving Repr

/-- `PERIODO_TIERRA_DIAS = 365.25`. -/
def PERIODO_TIERRA_DIAS : ℚ := 365.25

/-- Python `round(x, 2)` on the exact rational value. (Python rounds
half-to-even on binary floats; no verified claim evaluates at a tie, so
the difference is immaterial here.) -/
def round2 (q : ℚ) : ℚ := (round (q * 100) : ℤ) / 100

/-- `data['años_terrestres'] = round(pl_orbper / PERIODO_TIERRA_DIAS, 2)`
when the period is present, else `None`. -/
def aniosTerrestres : Option ℚ → Option ℚ
  | none => none
  | some p => some (round2 (p / PERIODO_TIERRA_DIAS))

/-- The `interpretacion` notes list of `comparar_con_tierra`: one
mass-classification note when the mass is present, nothing otherwise. -/
def interpretacionNotas (masse : Option ℚ) : List String :=
  match masse with
  | none => []
  | some m =>
      if m < 0.5 then ["Planeta muy ligero (posiblemente rocoso pequeño)"]
      else if m ≤ 2.0 then ["Masa similar a la Tierra (super-Tierra)"]
      else if m ≤ 10.0 then ["Mini-Neptuno"]
      else ["Gigante gaseoso"]

/-- `data['interpretacion'] = "; ".join(interpretacion) if interpretacion
else None`. -/
def interpretacionMasa (masse : Option ℚ) : Option String :=
  let notas := interpretacionNotas masse
  if notas.isEmpty then none else some (String.intercalate "; " notas)

/-- The first fetched row with the derived fields `años_terrestres` and
`interpretacion` attached. -/
structure DatosComparacion where
  row : RowComparar
  anios_terrestres : Option ℚ
  interpretacion : Option String
  deriving Repr

/-- `comparar_con_tierra` after the fetch: empty check on the result set,
then the derivation on `df.iloc[0]` packaged as a one-row success
envelope with `count = 1`. -/
def comparar_con_tierra_post (nombre : String) (rows : List RowComparar) :
    Envelope DatosComparacion :=
  match rows with
  | [] =>
      { status := .empty
        message := some ("No se encontró el exoplaneta " ++ quoteLit nombre)
        data := [] }
  | r :: _ =>
      { status := .success
        count := some 1
        data := [{ row := r
                   anios_terrestres := aniosTerrestres r.pl_orbper
                   interpretacion := interpretacionMasa r.pl_masse }] }

/-- A catalog row as fetched by `calcular_velocidad_escape`. -/
structure RowVE where
  pl_name : String
  pl_masse : Option ℚ
  pl_rade : Option ℚ
  pl_eqt : Option ℚ
  sy_dist : Option ℚ
  deriving Repr

/-- `G = 6.674e-11` m³/(kg·s²). -/
def G : ℝ := 6.674e-11

/-- `MASA_TIERRA_KG = 5.972e24`. -/
def MASA_TIERRA_KG : ℝ := 5.972e24

/-- `RADIO_TIERRA_M = 6.371e6`. -/
def RADIO_TIERRA_M : ℝ := 6.371e6

/-- `V_ESCAPE_TIERRA = 11.2` km/s. -/
def V_ESCAPE_TIERRA : ℝ := 11.2

/-- `math.sqrt((2 * G * masa_kg) / radio_m) / 1000`: the escape velocity
in km/s from Earth-relative mass and radius (`masa_kg = pl_masse *
MASA_TIERRA_KG`, `radio_m = pl_rade * RADIO_TIERRA_M`). -/
noncomputable def v_escape_kms (masse rade : ℝ) : ℝ :=
  Real.sqrt ((2 * G * (masse * MASA_TIERRA_KG)) / (rade * RADIO_TIERRA_M)) / 1000

/-- The five-tier `dificultad_escape` label chosen by the if/elif chain on
the (unrounded) velocity in km/s. -/
noncomputable def dificultad_escape (v : ℝ) : String :=
  if v < 5 then "Muy fácil de escapar"
  else if v < 11 then "Moderadamente difícil"
  else if v < 30 then "Difícil de escapar"
  else if v < 60 then "Muy difícil de escapar"
  else "Extremadamente difícil de escapar"

/-- The `interpretacion` notes of `calcular_velocidad_escape`: the tier
note followed by the rocket note (`v < 20` threshold). -/
noncomputable def interpretacionVE (v : ℝ) : List String :=
  (if v < 5 then ["Muy baja - atmósfera ligera o inexistente"]
   else if v < 11 then ["Similar a la Tierra - puede retener atmósfera"]
   else if v < 30 then ["Alta - gravedad superficial significativa"]
   else if v < 60 then ["Muy alta - gigante gaseoso pequeño"]
   else ["Extremadamente alta - gigante gaseoso masivo"]) ++
  (if v < 20 then ["Un cohete tipo Saturn V podría escapar"]
   else ["Requeriría cohetes más potentes que los actuales"])

/-- Python `round(x, 2)` on a real value (see `round2` on the tie
behaviour, which no verified claim touches). -/
noncomputable def round2R (x : ℝ) : ℝ := (round (x * 100) : ℤ) / 100

/-- The `resultado` record packaged by `calcular_velocidad_escape` (the
static `contexto` reference table of the source is constant and omitted). -/
structure ResultadoVE where
  pl_name : String
  pl_masse : ℚ
  pl_rade : ℚ
  velocidad_escape_kms : ℝ
  velocidad_escape_tierra : ℝ
  ratio_vs_tierra : ℝ
  dificultad_escape : String
  interpretacion : String

/-- `calcular_velocidad_escape` after the fetch: empty check, missing
mass/radius check on `df.iloc[0]`, then the escape-velocity derivation
packaged as a one-row success envelope with `count = 1`.

The whole body sits inside `try ... except Exception`, so the two
exceptions the derivation itself can raise are caught and returned as the
`unknown` error envelope: `radio_m == 0` makes the division raise
`ZeroDivisionError` ("float division by zero"), and a negative argument
makes `math.sqrt` raise `ValueError` ("math domain error"). Both paths
are modelled explicitly; only when the argument is admissible does the
success envelope result (where `Real.sqrt` agrees with `math.sqrt`). -/
noncomputable def calcular_velocidad_escape_post (nombre : String)
    (rows : List RowVE) : Envelope ResultadoVE :=
  match rows with
  | [] =>
      { status := .empty
        message := some ("No se encontró el exoplaneta " ++ quoteLit nombre)
        data := [] }
  | r :: _ =>
      match r.pl_masse, r.pl_rade with
      | some masse, some rade =>
          if (rade : ℝ) * RADIO_TIERRA_M = 0 then
            { status := .error
              error_type := some "unknown"
              message := some "Error inesperado: float division by zero" }
          else if (2 * G * ((masse : ℝ) * MASA_TIERRA_KG)) /
              ((rade : ℝ) * RADIO_TIERRA_M) < 0 then
            { status := .error
              error_type := some "unknown"
              message := some "Error inesperado: math domain error" }
          else
            { status := .success
              count := some 1
              data := [{ pl_name := r.pl_name
                         pl_masse := masse
                         pl_rade := rade
                         velocidad_escape_kms :=
                           round2R (v_escape_kms (masse : ℝ) (rade : ℝ))
                         velocidad_escape_tierra := V_ESCAPE_TIERRA
                         ratio_vs_tierra :=
                           round2R (v_escape_kms (masse : ℝ) (rade : ℝ) / V_ESCAPE_TIERRA)
                         dificultad_escape :=
                           dificultad_escape (v_escape_kms (masse : ℝ) (rade : ℝ))
                         interpretacion :=
                           String.intercalate "; "
                             (interpretacionVE (v_escape_kms (masse : ℝ) (rade : ℝ))) }] }
      | _, _ =>
          { status := .error
            message := some ("El exoplaneta " ++ quoteLit nombre ++
              " no tiene datos de masa o radio necesarios para calcular velocidad de escape")
            data := [] }

/-- A string `needle` occurs verbatim inside `haystack`. -/
def containsStr (haystack needle : String) : Prop :=
  ∃ pre suf : List Char, haystack.data = pre ++ needle.data ++ suf

lemma unescapeChars_cons_ne (c : Char) (l : List Char) (hc : c ≠ sq) :
    unescapeChars (c :: l) = c :: unescapeChars l := by
  cases l with
  | nil => rfl
  | cons c2 rest => simp [unescapeChars, hc]

lemma unescapeChars_escapeChars (l : List Char) :
    unescapeChars (escapeChars l) = l := by
  induction l with
  | nil => rfl
  | cons c rest ih =>
      by_cases hc : c = sq
      · subst hc
        simp [escapeChars, unescapeChars, ih]
      · simp [escapeChars, hc, unescapeChars_cons_ne c _ hc, ih]

/-- C1. Every user string interpolated into a query literal is escaped by
`escapar` (quote doubling: each `'` becomes `''`, other characters pass
through), and the escaping round-trips: replacing each `''` by `'` in the
escaped string recovers the original, for every input string. -/
theorem escapar_roundtrip :
    (∀ s : String, desescapar (escapar s) = s) ∧
    (∀ c : Char, escapeChars [c] = if c = sq then [sq, sq] else [c]) := by
  constructor
  · intro s
    cases s with
    | mk data => simp [escapar, desescapar, unescapeChars_escapeChars]
  · intro c
    by_cases hc : c = sq <;> simp [escapeChars, hc]

/-- C3 counterexample. The claim "a predicate is added iff the parameter
is non-null" fails: `busqueda_avanzada` with `metodo` equal to the
non-null empty string adds no predicate (Python truthiness `if metodo:`),
and `timeline_descubrimientos` with the non-null year `0` adds no
predicate (`if año_inicio:`). -/
theorem condiciones_truthiness_cex :
    condicionesAvanzada none none none none none none (some "") none = [] ∧
    (some "" : Option String) ≠ none ∧
    condicionesTimeline (some 0) (some 0) = [] ∧
    (some (0 : ℤ)) ≠ none := by
  refine ⟨rfl, by simp, rfl, by simp⟩

/-- C3 amended. The numeric filters of `busqueda_avanzada` (mass min/max,
period min/max, distance max, year min) add their predicate iff the
parameter is non-null; the `metodo` and `locale` predicates are added iff
the parameter is non-null and non-empty; the `timeline_descubrimientos`
year predicates are added iff the parameter is non-null and non-zero; and
all-null parameters produce the empty condition list (no constraint). -/
theorem condiciones_presencia :
    (∀ v : Option ℚ,
      (condMasaMin v ≠ none ↔ v ≠ none) ∧
      (condMasaMax v ≠ none ↔ v ≠ none) ∧
      (condPeriodoMin v ≠ none ↔ v ≠ none) ∧
      (condPeriodoMax v ≠ none ↔ v ≠ none) ∧
      (condDistanciaMax v ≠ none ↔ v ≠ none)) ∧
    (∀ y : Option ℤ,
      (condAnioMin y ≠ none ↔ y ≠ none) ∧
      (condTimelineInicio y ≠ none ↔ y ≠ none ∧ y ≠ some 0) ∧
      (condTimelineFin y ≠ none ↔ y ≠ none ∧ y ≠ some 0)) ∧
    (∀ s : Option String,
      (condMetodo s ≠ none ↔ s ≠ none ∧ s ≠ some "") ∧
      (condLocale s ≠ none ↔ s ≠ none ∧ s ≠ some "")) ∧
    condicionesAvanzada none none none none none none none none = [] ∧
    condicionesTimeline none none = [] := by
  refine ⟨?_, ?_, ?_, rfl, rfl⟩
  · intro v
    cases v <;>
      simp [condMasaMin, condMasaMax, condPeriodoMin, condPeriodoMax, condDistanciaMax]
  · intro y
    cases y with
    | none => simp [condAnioMin, condTimelineInicio, condTimelineFin]
    | some n =>
        refine ⟨by simp [condAnioMin], ?_, ?_⟩ <;>
          by_cases hn : n = 0 <;>
            simp [condTimelineInicio, condTimelineFin, hn]
  · intro s
    cases s with
    | none => simp [condMetodo, condLocale]
    | some m =>
        by_cases hm : m = "" <;> simp [condMetodo, condLocale, hm]

/-- C8. For every name that is empty or whitespace-only, each of the three
name-based tools short-circuits to an error envelope before any query
string is built (`ToolAction.earlyError` carries no query, so the TAP
service is never contacted on this path). -/
theorem nombre_vacio_error_temprano (nombre : String)
    (h : nombre_vacio nombre = true) :
    buscar_datos_exoplaneta_fase1 nombre =
      .earlyError { status := .error, message := some "El nombre no puede estar vacío" } ∧
    comparar_con_tierra_fase1 nombre =
      .earlyError { status := .error, message := some "El nombre no puede estar vacío" } ∧
    calcular_velocidad_escape_fase1 nombre =
      .earlyError { status := .error, message := some "El nombre no puede estar vacío" } := by
  refine ⟨?_, ?_, ?_⟩ <;>
    simp [buscar_datos_exoplaneta_fase1, comparar_con_tierra_fase1,
      calcular_velocidad_escape_fase1, h]

/-- Witness for C8 at the whitespace-only name `"   "`. -/
theorem nombre_vacio_error_temprano_witness :
    nombre_vacio "   " = true ∧
    buscar_datos_exoplaneta_fase1 "   " =
      .earlyError { status := .error, message := some "El nombre no puede estar vacío" } :=
  ⟨by decide, (nombre_vacio_error_temprano "   " (by decide)).1⟩

lemma validar_fuera_de_rango (v maximo : ℤ) (nombre : String)
    (h : v ≤ 0 ∨ maximo < v) :
    ∃ msg, validar_numero_positivo v nombre maximo = some msg ∧
      containsStr msg (toString v) := by
  by_cases h0 : v ≤ 0
  · refine ⟨nombre ++ " debe ser mayor a 0, recibido: " ++ toString v, ?_, ?_⟩
    · unfold validar_numero_positivo
      rw [if_pos h0]
    · exact ⟨(nombre ++ " debe ser mayor a 0, recibido: ").data, [], by simp⟩
  · have hm : maximo < v := by
      rcases h with h | h
      · omega
      · exact h
    refine ⟨nombre ++ " no puede exceder " ++ toString maximo ++
      ", recibido: " ++ toString v, ?_, ?_⟩
    · unfold validar_numero_positivo
      rw [if_neg h0, if_pos (by omega : v > maximo)]
    · exact ⟨(nombre ++ " no puede exceder " ++ toString maximo ++
        ", recibido: ").data, [], by simp⟩

lemma validar_pasa (v maximo : ℤ) (nombre : String) (h1 : 1 ≤ v)
    (h2 : v ≤ maximo) :
    validar_numero_positivo v nombre maximo = none := by
  unfold validar_numero_positivo
  rw [if_neg (by omega), if_neg (by omega)]

/-- C4. For each integer input validated against its tool's upper bound
(`numero_planetas` against 500 in `listar_exoplanetas_mas_masivos` and
against 100 in `buscar_planetas_habitables`, `limite` against 200 in
`buscar_por_metodo_descubrimiento`): a value `v ≤ 0` or `v > max` makes
the tool return an error-status envelope whose message contains `v`,
while `1 ≤ v ≤ max` passes the validator and the tool proceeds to
normalize the fetched rows. -/
theorem validacion_numerica {α : Type} (v : ℤ) (fetched : List α) :
    (v ≤ 0 ∨ 500 < v →
      ∃ msg, listar_exoplanetas_mas_masivos v fetched = envelopeErrorValidacion msg ∧
        (listar_exoplanetas_mas_masivos v fetched).status = .error ∧
        containsStr msg (toString v)) ∧
    (1 ≤ v ∧ v ≤ 500 →
      validar_numero_positivo v "numero_planetas" 500 = none ∧
      listar_exoplanetas_mas_masivos v fetched =
        normalizar fetched ("top " ++ toString v ++ " exoplanetas más masivos")) ∧
    (v ≤ 0 ∨ 100 < v →
      ∃ msg, buscar_planetas_habitables v fetched = envelopeErrorValidacion msg ∧
        (buscar_planetas_habitables v fetched).status = .error ∧
        containsStr msg (toString v)) ∧
    (1 ≤ v ∧ v ≤ 100 →
      buscar_planetas_habitables v fetched =
        normalizar fetched "planetas potencialmente habitables") ∧
    (∀ metodo : String,
      (v ≤ 0 ∨ 200 < v →
        ∃ msg, buscar_por_metodo_descubrimiento metodo v fetched =
            envelopeErrorValidacion msg ∧
          (buscar_por_metodo_descubrimiento metodo v fetched).status = .error ∧
          containsStr msg (toString v)) ∧
      (1 ≤ v ∧ v ≤ 200 →
        buscar_por_metodo_descubrimiento metodo v fetched =
          normalizar fetched ("exoplanetas descubiertos por " ++ metodo))) := by
  refine ⟨?_, ?_, ?_, ?_, ?_⟩
  · intro h
    obtain ⟨msg, hv, hc⟩ := validar_fuera_de_rango v 500 "numero_planetas" h
    refine ⟨msg, ?_, ?_, hc⟩ <;>
      simp [listar_exoplanetas_mas_masivos, hv, envelopeErrorValidacion]
  · intro ⟨h1, h2⟩
    have hv := validar_pasa v 500 "numero_planetas" h1 h2
    exact ⟨hv, by simp [listar_exoplanetas_mas_masivos, hv]⟩
  · intro h
    obtain ⟨msg, hv, hc⟩ := validar_fuera_de_rango v 100 "numero_planetas" h
    refine ⟨msg, ?_, ?_, hc⟩ <;>
      simp [buscar_planetas_habitables, hv, envelopeErrorValidacion]
  · intro ⟨h1, h2⟩
    have hv := validar_pasa v 100 "numero_planetas" h1 h2
    simp [buscar_planetas_habitables, hv]
  · intro metodo
    constructor
    · intro h
      obtain ⟨msg, hv, hc⟩ := validar_fuera_de_rango v 200 "limite" h
      refine ⟨msg, ?_, ?_, hc⟩ <;>
        simp [buscar_por_metodo_descubrimiento, hv, envelopeErrorValidacion]
    · intro ⟨h1, h2⟩
      have hv := validar_pasa v 200 "limite" h1 h2
      simp [buscar_por_metodo_descubrimiento, hv]

/-- Witness for C4: `numero_planetas = 501` is rejected with the value in
the message; `numero_planetas = 10` passes validation and normalizes. -/
theorem validacion_numerica_witness :
    (∃ msg, listar_exoplanetas_mas_masivos 501 ([] : List Unit) =
        envelopeErrorValidacion msg ∧
      (listar_exoplanetas_mas_masivos 501 ([] : List Unit)).status = .error ∧
      containsStr msg (toString (501 : ℤ))) ∧
    listar_exoplanetas_mas_masivos 10 [()] =
      normalizar [()] ("top " ++ toString (10 : ℤ) ++ " exoplanetas más masivos") :=
  ⟨(validacion_numerica 501 ([] : List Unit)).1 (Or.inr (by norm_num)),
   ((validacion_numerica 10 [()]).2.1 ⟨by norm_num, by norm_num⟩).2⟩

/-- C5. The mass-classification bins of `comparar_con_tierra` partition
the rationals: `m < 0.5` is "very light", `0.5 ≤ m ≤ 2` is
Earth-like/super-Earth (so 0.5 is Earth-like, not very light),
`2 < m ≤ 10` is mini-Neptune (so 10 is mini-Neptune), `10 < m` is gas
giant; a null/NaN mass leaves the `interpretacion` field null. -/
theorem interpretacion_masa_bins (m : ℚ) :
    (m < 0.5 →
      interpretacionMasa (some m) = some "Planeta muy ligero (posiblemente rocoso pequeño)") ∧
    (0.5 ≤ m → m ≤ 2 →
      interpretacionMasa (some m) = some "Masa similar a la Tierra (super-Tierra)") ∧
    (2 < m → m ≤ 10 → interpretacionMasa (some m) = some "Mini-Neptuno") ∧
    (10 < m → interpretacionMasa (some m) = some "Gigante gaseoso") ∧
    interpretacionMasa none = none := by
  refine ⟨?_, ?_, ?_, ?_, rfl⟩
  · intro h
    simp only [interpretacionMasa, interpretacionNotas, if_pos h]
    rfl
  · intro h1 h2
    have e2 : m ≤ 2.0 := by norm_num; linarith
    simp only [interpretacionMasa, interpretacionNotas,
      if_neg (not_lt.mpr h1), if_pos e2]
    rfl
  · intro h1 h2
    have h05 : ¬ m < 0.5 := by norm_num; linarith
    have e2 : ¬ m ≤ 2.0 := by norm_num; linarith
    have e10 : m ≤ 10.0 := by norm_num; linarith
    simp only [interpretacionMasa, interpretacionNotas, if_neg h05,
      if_neg e2, if_pos e10]
    rfl
  · intro h
    have h05 : ¬ m < 0.5 := by norm_num; linarith
    have e2 : ¬ m ≤ 2.0 := by norm_num; linarith
    have e10 : ¬ m ≤ 10.0 := by norm_num; linarith
    simp only [interpretacionMasa, interpretacionNotas, if_neg h05,
      if_neg e2, if_neg e10]
    rfl

/-- Witness for C5 at the boundary masses 0.25, 0.5, 10 and 10.01. -/
theorem interpretacion_masa_bins_witness :
    interpretacionMasa (some 0.25) =
      some "Planeta muy ligero (posiblemente rocoso pequeño)" ∧
    interpretacionMasa (some 0.5) =
      some "Masa similar a la Tierra (super-Tierra)" ∧
    interpretacionMasa (some 10) = some "Mini-Neptuno" ∧
    interpretacionMasa (some 10.01) = some "Gigante gaseoso" :=
  ⟨(interpretacion_masa_bins 0.25).1 (by norm_num),
   (interpretacion_masa_bins 0.5).2.1 (by norm_num) (by norm_num),
   (interpretacion_masa_bins 10).2.2.1 (by norm_num) (by norm_num),
   (interpretacion_masa_bins 10.01).2.2.2.1 (by norm_num)⟩

/-- C6. Result normalization is uniform: an empty row set yields the
`empty` envelope with the call description in its message and an explicit
empty data list; a row set with `n > 0` rows yields the `success`
envelope with `count = n` and the rows as its data. -/
theorem normalizar_uniforme {α : Type} (rows : List α) (descripcion : String) :
    (rows = [] →
      normalizar rows descripcion =
        { status := .empty,
          message := some ("No se encontraron resultados para " ++ descripcion),
          data := [] } ∧
      containsStr ("No se encontraron resultados para " ++ descripcion) descripcion) ∧
    (rows ≠ [] →
      (normalizar rows descripcion).status = .success ∧
      (normalizar rows descripcion).count = some rows.length ∧
      (normalizar rows descripcion).data = rows) := by
  constructor
  · intro h
    subst h
    exact ⟨rfl, "No se encontraron resultados para ".data, [], by simp⟩
  · intro h
    cases rows with
    | nil => exact absurd rfl h
    | cons r rest => simp [normalizar]

/-- Witness for C6 at the empty row set and a one-row set. -/
theorem normalizar_uniforme_witness :
    normalizar ([] : List Unit) "consulta" =
      { status := .empty,
        message := some ("No se encontraron resultados para " ++ "consulta"),
        data := [] } ∧
    (normalizar [()] "consulta").status = .success ∧
    (normalizar [()] "consulta").count = some 1 ∧
    (normalizar [()] "consulta").data = [()] :=
  ⟨((normalizar_uniforme ([] : List Unit) "consulta").1 rfl).1,
   (normalizar_uniforme [()] "consulta").2 (by simp)⟩

/-- C7. On a fetched row whose mass or radius is null/NaN,
`calcular_velocidad_escape` returns the error envelope naming the missing
mass-or-radius data with an empty data list; when both fields are
non-null that missing-data branch is never taken (the envelope is either
success or the classified `unknown` error, never the missing-data error):
for positive mass and radius the computation runs to a success envelope
carrying the computed velocity, and when the sqrt argument is out of
domain (zero radius or negative argument) the caught exception yields the
`unknown` error envelope with an empty data list — so the tool never
crashes and never puts a NaN velocity in its data. -/
theorem velocidad_escape_datos_faltantes (nombre : String) (r : RowVE)
    (rest : List RowVE) :
    (r.pl_masse = none ∨ r.pl_rade = none →
      (calcular_velocidad_escape_post nombre (r :: rest)).status = .error ∧
      (calcular_velocidad_escape_post nombre (r :: rest)).message =
        some ("El exoplaneta " ++ quoteLit nombre ++
          " no tiene datos de masa o radio necesarios para calcular velocidad de escape") ∧
      (calcular_velocidad_escape_post nombre (r :: rest)).data = []) ∧
    (∀ m rad : ℚ, r.pl_masse = some m → r.pl_rade = some rad →
      ((calcular_velocidad_escape_post nombre (r :: rest)).status = .success ∨
        (calcular_velocidad_escape_post nombre (r :: rest)).error_type = some "unknown") ∧
      (0 < m → 0 < rad →
        (calcular_velocidad_escape_post nombre (r :: rest)).status = .success ∧
        ∃ res : ResultadoVE,
          (calcular_velocidad_escape_post nombre (r :: rest)).data = [res] ∧
          res.velocidad_escape_kms = round2R (v_escape_kms (m : ℝ) (rad : ℝ)) ∧
          res.dificultad_escape = dificultad_escape (v_escape_kms (m : ℝ) (rad : ℝ))) ∧
      ((rad : ℝ) * RADIO_TIERRA_M = 0 ∨
          (2 * G * ((m : ℝ) * MASA_TIERRA_KG)) / ((rad : ℝ) * RADIO_TIERRA_M) < 0 →
        (calcular_velocidad_escape_post nombre (r :: rest)).status = .error ∧
        (calcular_velocidad_escape_post nombre (r :: rest)).error_type = some "unknown" ∧
        (calcular_velocidad_escape_post nombre (r :: rest)).data = [])) := by
  obtain ⟨nm, masse, rade, eqt, dist⟩ := r
  constructor
  · intro h
    rcases h with h | h <;> simp only at h <;> subst h
    · cases rade <;> simp [calcular_velocidad_escape_post]
    · cases masse <;> simp [calcular_velocidad_escape_post]
  · intro m rad hm hrad
    simp only at hm hrad
    subst hm
    subst hrad
    refine ⟨?_, ?_, ?_⟩
    · by_cases h0 : (rad : ℝ) * RADIO_TIERRA_M = 0
      · exact Or.inr (by simp [calcular_velocidad_escape_post, h0])
      · by_cases h1 : (2 * G * ((m : ℝ) * MASA_TIERRA_KG)) /
            ((rad : ℝ) * RADIO_TIERRA_M) < 0
        · exact Or.inr (by simp [calcular_velocidad_escape_post, h0, h1])
        · exact Or.inl (by simp [calcular_velocidad_escape_post, h0, h1])
    · intro hm0 hrad0
      have hradR : (0 : ℝ) < (rad : ℝ) := by exact_mod_cast hrad0
      have hmR : (0 : ℝ) < (m : ℝ) := by exact_mod_cast hm0
      have hx : (0 : ℝ) < (rad : ℝ) * RADIO_TIERRA_M := by
        simp only [RADIO_TIERRA_M]
        positivity
      have harg : (0 : ℝ) < (2 * G * ((m : ℝ) * MASA_TIERRA_KG)) /
          ((rad : ℝ) * RADIO_TIERRA_M) := by
        simp only [G, MASA_TIERRA_KG, RADIO_TIERRA_M]
        positivity
      have h0 : ¬((rad : ℝ) * RADIO_TIERRA_M = 0) := ne_of_gt hx
      have h1 : ¬((2 * G * ((m : ℝ) * MASA_TIERRA_KG)) /
          ((rad : ℝ) * RADIO_TIERRA_M) < 0) := not_lt.mpr harg.le
      refine ⟨by simp [calcular_velocidad_escape_post, h0, h1], ?_⟩
      have heval : calcular_velocidad_escape_post nombre
          ((⟨nm, some m, some rad, eqt, dist⟩ : RowVE) :: rest) =
          { status := .success
            count := some 1
            data := [{ pl_name := nm
                       pl_masse := m
                       pl_rade := rad
                       velocidad_escape_kms :=
                         round2R (v_escape_kms (m : ℝ) (rad : ℝ))
                       velocidad_escape_tierra := V_ESCAPE_TIERRA
                       ratio_vs_tierra :=
                         round2R (v_escape_kms (m : ℝ) (rad : ℝ) / V_ESCAPE_TIERRA)
                       dificultad_escape :=
                         dificultad_escape (v_escape_kms (m : ℝ) (rad : ℝ))
                       interpretacion :=
                         String.intercalate "; "
                           (interpretacionVE (v_escape_kms (m : ℝ) (rad : ℝ))) }] } := by
        simp only [calcular_velocidad_escape_post]
        rw [if_neg h0, if_neg h1]
      rw [heval]
      exact ⟨_, rfl, rfl, rfl⟩
    · intro hdom
      by_cases h0 : (rad : ℝ) * RADIO_TIERRA_M = 0
      · refine ⟨?_, ?_, ?_⟩ <;> simp [calcular_velocidad_escape_post, h0]
      · have h1 : (2 * G * ((m : ℝ) * MASA_TIERRA_KG)) /
            ((rad : ℝ) * RADIO_TIERRA_M) < 0 := by
          rcases hdom with h | h
          · exact absurd h h0
          · exact h
        refine ⟨?_, ?_, ?_⟩ <;> simp [calcular_velocidad_escape_post, h0, h1]

/-- Witness for C7: a row missing its radius is rejected; a row with
mass 2 and radius 1 reaches the computation and succeeds. -/
theorem velocidad_escape_datos_faltantes_witness :
    (calcular_velocidad_escape_post "X"
      [{ pl_name := "X", pl_masse := some 2, pl_rade := none,
         pl_eqt := none, sy_dist := none }]).status = .error ∧
    (calcular_velocidad_escape_post "X"
      [{ pl_name := "X", pl_masse := some 2, pl_rade := some 1,
         pl_eqt := none, sy_dist := none }]).status = .success :=
  ⟨((velocidad_escape_datos_faltantes "X"
      { pl_name := "X", pl_masse := some 2, pl_rade := none,
        pl_eqt := none, sy_dist := none } []).1 (Or.inr rfl)).1,
   ((((velocidad_escape_datos_faltantes "X"
      { pl_name := "X", pl_masse := some 2, pl_rade := some 1,
        pl_eqt := none, sy_dist := none } []).2 2 1 rfl rfl).2.1
      (by norm_num) (by norm_num)).1)⟩

/-- C10. Whenever `comparar_con_tierra` or `calcular_velocidad_escape`
returns a success envelope it has `count = 1` and exactly one data
element, and the output depends only on the first fetched row: two row
sets with the same head produce identical envelopes. -/
theorem exito_una_fila (nombre : String) (rows rows2 : List RowComparar)
    (rowsv rowsv2 : List RowVE) :
    ((comparar_con_tierra_post nombre rows).status = .success →
      (comparar_con_tierra_post nombre rows).count = some 1 ∧
      (comparar_con_tierra_post nombre rows).data.length = 1) ∧
    (rows.head? = rows2.head? →
      comparar_con_tierra_post nombre rows = comparar_con_tierra_post nombre rows2) ∧
    ((calcular_velocidad_escape_post nombre rowsv).status = .success →
      (calcular_velocidad_escape_post nombre rowsv).count = some 1 ∧
      (calcular_velocidad_escape_post nombre rowsv).data.length = 1) ∧
    (rowsv.head? = rowsv2.head? →
      calcular_velocidad_escape_post nombre rowsv =
        calcular_velocidad_escape_post nombre rowsv2) := by
  refine ⟨?_, ?_, ?_, ?_⟩
  · intro h
    cases rows with
    | nil => simp [comparar_con_tierra_post] at h
    | cons r rest => exact ⟨rfl, rfl⟩
  · intro h
    cases rows with
    | nil =>
        cases rows2 with
        | nil => rfl
        | cons r2 rest2 => simp at h
    | cons r rest =>
        cases rows2 with
        | nil => simp at h
        | cons r2 rest2 =>
            simp only [List.head?_cons, Option.some.injEq] at h
            subst h
            rfl
  · intro h
    cases rowsv with
    | nil => simp [calcular_velocidad_escape_post] at h
    | cons r rest =>
        obtain ⟨nm, masse, rade, eqt, dist⟩ := r
        cases masse with
        | none => cases rade <;> simp [calcular_velocidad_escape_post] at h
        | some m =>
            cases rade with
            | none => simp [calcular_velocidad_escape_post] at h
            | some rad =>
                by_cases h0 : (rad : ℝ) * RADIO_TIERRA_M = 0
                · simp [calcular_velocidad_escape_post, h0] at h
                · by_cases h1 : (2 * G * ((m : ℝ) * MASA_TIERRA_KG)) /
                      ((rad : ℝ) * RADIO_TIERRA_M) < 0
                  · simp [calcular_velocidad_escape_post, h0, h1] at h
                  · constructor <;> simp [calcular_velocidad_escape_post, h0, h1]
  · intro h
    cases rowsv with
    | nil =>
        cases rowsv2 with
        | nil => rfl
        | cons r2 rest2 => simp at h
    | cons r rest =>
        cases rowsv2 with
        | nil => simp at h
        | cons r2 rest2 =>
            simp only [List.head?_cons, Option.some.injEq] at h
            subst h
            rfl

/-- Witness for C10: a one-row and a two-row result set with the same
first row give the same success envelope with `count = 1`. -/
theorem exito_una_fila_witness :
    (comparar_con_tierra_post "X"
      [{ pl_name := "X", pl_masse := some 1, pl_rade := some 1,
         pl_orbper := some 365.25, pl_eqt := none, sy_dist := none,
         discoverymethod := none, disc_year := none, disc_locale := none }]).count =
      some 1 ∧
    comparar_con_tierra_post "X"
      [{ pl_name := "X", pl_masse := some 1, pl_rade := some 1,
         pl_orbper := some 365.25, pl_eqt := none, sy_dist := none,
         discoverymethod := none, disc_year := none, disc_locale := none }] =
    comparar_con_tierra_post "X"
      [{ pl_name := "X", pl_masse := some 1, pl_rade := some 1,
         pl_orbper := some 365.25, pl_eqt := none, sy_dist := none,
         discoverymethod := none, disc_year := none, disc_locale := none },
       { pl_name := "Y", pl_masse := some 5, pl_rade := some 2,
         pl_orbper := none, pl_eqt := none, sy_dist := none,
         discoverymethod := none, disc_year := none, disc_locale := none }] :=
  ⟨((exito_una_fila "X"
      [{ pl_name := "X", pl_masse := some 1, pl_rade := some 1,
         pl_orbper := some 365.25, pl_eqt := none, sy_dist := none,
         discoverymethod := none, disc_year := none, disc_locale := none }] [] [] []).1
      rfl).1,
   (exito_una_fila "X"
      [{ pl_name := "X", pl_masse := some 1, pl_rade := some 1,
         pl_orbper := some 365.25, pl_eqt := none, sy_dist := none,
         discoverymethod := none, disc_year := none, disc_locale := none }]
      [{ pl_name := "X", pl_masse := some 1, pl_rade := some 1,
         pl_orbper := some 365.25, pl_eqt := none, sy_dist := none,
         discoverymethod := none, disc_year := none, disc_locale := none },
       { pl_name := "Y", pl_masse := some 5, pl_rade := some 2,
         pl_orbper := none, pl_eqt := none, sy_dist := none,
         discoverymethod := none, disc_year := none, disc_locale := none }] [] []).2.1
      rfl⟩

lemma sqrt_div1000_lt (a b : ℝ) (ha : 0 ≤ a) (hab : a < b) :
    Real.sqrt a / 1000 < Real.sqrt b / 1000 := by
  have h := Real.sqrt_lt_sqrt ha hab
  linarith

/-- C9. The escape-velocity formula is strictly monotone: at fixed
positive radius a strictly larger positive mass gives a strictly larger
velocity, and at fixed positive mass a strictly larger positive radius
gives a strictly smaller velocity. -/
theorem v_escape_monotonia (m m2 r r2 : ℝ) (hm : 0 < m) (_hm2 : 0 < m2)
    (hr : 0 < r) (hr2 : 0 < r2) :
    (m < m2 → v_escape_kms m r < v_escape_kms m2 r) ∧
    (r < r2 → v_escape_kms m r2 < v_escape_kms m r) := by
  constructor
  · intro h
    simp only [v_escape_kms, G, MASA_TIERRA_KG, RADIO_TIERRA_M]
    apply sqrt_div1000_lt
    · positivity
    · rw [div_lt_div_iff_of_pos_right (by positivity)]
      nlinarith
  · intro h
    simp only [v_escape_kms, G, MASA_TIERRA_KG, RADIO_TIERRA_M]
    apply sqrt_div1000_lt
    · positivity
    · apply div_lt_div_of_pos_left
      · positivity
      · positivity
      · nlinarith

/-- Witness for C9 at mass 1 < 2 (radius 1) and radius 1 < 2 (mass 1). -/
theorem v_escape_monotonia_witness :
    v_escape_kms 1 1 < v_escape_kms 2 1 ∧ v_escape_kms 1 2 < v_escape_kms 1 1 :=
  ⟨(v_escape_monotonia 1 2 1 1 (by norm_num) (by norm_num) (by norm_num)
      (by norm_num)).1 (by norm_num),
   (v_escape_monotonia 1 1 1 2 (by norm_num) (by norm_num) (by norm_num)
      (by norm_num)).2 (by norm_num)⟩

lemma v_escape_tierra_bounds :
    11.185 < v_escape_kms 1 1 ∧ v_escape_kms 1 1 < 11.186 := by
  have arg : (2 * G * ((1 : ℝ) * MASA_TIERRA_KG)) / ((1 : ℝ) * RADIO_TIERRA_M) =
      7.9714256e14 / 6.371e6 := by
    simp only [G, MASA_TIERRA_KG, RADIO_TIERRA_M]
    norm_num
  constructor
  · unfold v_escape_kms
    rw [arg, show (11.185 : ℝ) = 11185 / 1000 by norm_num,
      div_lt_div_iff_of_pos_right (by norm_num : (0:ℝ) < 1000),
      Real.lt_sqrt (by norm_num)]
    norm_num
  · unfold v_escape_kms
    rw [arg, show (11.186 : ℝ) = 11186 / 1000 by norm_num,
      div_lt_div_iff_of_pos_right (by norm_num : (0:ℝ) < 1000),
      Real.sqrt_lt' (by norm_num)]
    norm_num

lemma round_velocidad_tierra : round2R (v_escape_kms 1 1) = 11.19 := by
  obtain ⟨h1, h2⟩ := v_escape_tierra_bounds
  unfold round2R
  have hr : round (v_escape_kms 1 1 * 100) = 1119 := by
    rw [round_eq, Int.floor_eq_iff]
    constructor
    · push_cast
      linarith
    · push_cast
      linarith
  rw [hr]
  norm_num

lemma round_ratio_tierra : round2R (v_escape_kms 1 1 / V_ESCAPE_TIERRA) = 1 := by
  obtain ⟨h1, h2⟩ := v_escape_tierra_bounds
  unfold round2R V_ESCAPE_TIERRA
  have hr : round (v_escape_kms 1 1 / 11.2 * 100) = 100 := by
    rw [round_eq,
      show v_escape_kms 1 1 / 11.2 * 100 = v_escape_kms 1 1 * (125 / 14) by ring,
      Int.floor_eq_iff]
    constructor
    · push_cast
      linarith
    · push_cast
      linarith
  rw [hr]
  norm_num

lemma calcular_post_tierra_eval :
    calcular_velocidad_escape_post "Tierra"
      [{ pl_name := "Tierra", pl_masse := some 1, pl_rade := some 1,
         pl_eqt := none, sy_dist := none }] =
      { status := .success
        count := some 1
        data := [{ pl_name := "Tierra"
                   pl_masse := 1
                   pl_rade := 1
                   velocidad_escape_kms :=
                     round2R (v_escape_kms ((1:ℚ) : ℝ) ((1:ℚ) : ℝ))
                   velocidad_escape_tierra := V_ESCAPE_TIERRA
                   ratio_vs_tierra :=
                     round2R (v_escape_kms ((1:ℚ) : ℝ) ((1:ℚ) : ℝ) / V_ESCAPE_TIERRA)
                   dificultad_escape :=
                     dificultad_escape (v_escape_kms ((1:ℚ) : ℝ) ((1:ℚ) : ℝ))
                   interpretacion :=
                     String.intercalate "; "
                       (interpretacionVE (v_escape_kms ((1:ℚ) : ℝ) ((1:ℚ) : ℝ))) }] } := by
  have h0 : ¬(((1:ℚ) : ℝ) * RADIO_TIERRA_M = 0) := by
    simp only [RADIO_TIERRA_M]
    norm_num
  have h1 : ¬((2 * G * (((1:ℚ) : ℝ) * MASA_TIERRA_KG)) /
      (((1:ℚ) : ℝ) * RADIO_TIERRA_M) < 0) := by
    simp only [G, MASA_TIERRA_KG, RADIO_TIERRA_M]
    norm_num
  simp only [calcular_velocidad_escape_post]
  rw [if_neg h0, if_neg h1]

lemma dificultad_tierra : dificultad_escape (v_escape_kms 1 1) = "Difícil de escapar" := by
  obtain ⟨h1, h2⟩ := v_escape_tierra_bounds
  unfold dificultad_escape
  rw [if_neg (not_lt.mpr (by linarith : (5:ℝ) ≤ v_escape_kms 1 1)),
    if_neg (not_lt.mpr (by linarith : (11:ℝ) ≤ v_escape_kms 1 1)),
    if_pos (by linarith : v_escape_kms 1 1 < 30)]

/-- C2 counterexample. On the Earth-like row (mass 1.0, radius 1.0) the
computed velocity is ≈11.186 km/s, which is ≥ 11, so the difficulty label
is the 11–30 km/s tier "Difícil de escapar", not the claimed 5–11 km/s
tier "Moderadamente difícil". -/
theorem velocidad_tierra_cex :
    ∃ res : ResultadoVE,
      (calcular_velocidad_escape_post "Tierra"
        [{ pl_name := "Tierra", pl_masse := some 1, pl_rade := some 1,
           pl_eqt := none, sy_dist := none }]).data = [res] ∧
      res.dificultad_escape = "Difícil de escapar" ∧
      res.dificultad_escape ≠ "Moderadamente difícil" := by
  refine ⟨_, by rw [calcular_post_tierra_eval], ?_, ?_⟩
  · show dificultad_escape (v_escape_kms ((1:ℚ) : ℝ) ((1:ℚ) : ℝ)) = _
    simp only [Rat.cast_one]
    exact dificultad_tierra
  · show dificultad_escape (v_escape_kms ((1:ℚ) : ℝ) ((1:ℚ) : ℝ)) ≠ _
    simp only [Rat.cast_one]
    rw [dificultad_tierra]
    decide

/-- C2 amended. On a fetched row with mass = 1.0 and radius = 1.0,
`calcular_velocidad_escape` returns a success envelope whose
`velocidad_escape_kms` is 11.19 (the unrounded velocity lies between
11.18 and 11.19 km/s), whose `ratio_vs_tierra` is 1.00, and whose
difficulty label is the 11–30 km/s tier "Difícil de escapar" — not the
5–11 km/s Earth-like tier, since the computed velocity exceeds 11. -/
theorem velocidad_tierra_amended :
    ∃ res : ResultadoVE,
      calcular_velocidad_escape_post "Tierra"
        [{ pl_name := "Tierra", pl_masse := some 1, pl_rade := some 1,
           pl_eqt := none, sy_dist := none }] =
        { status := .success, count := some 1, data := [res] } ∧
      res.velocidad_escape_kms = 11.19 ∧
      res.ratio_vs_tierra = 1 ∧
      res.dificultad_escape = "Difícil de escapar" ∧
      11.18 < v_escape_kms 1 1 ∧ v_escape_kms 1 1 < 11.19 := by
  obtain ⟨h1, h2⟩ := v_escape_tierra_bounds
  refine ⟨_, calcular_post_tierra_eval, ?_, ?_, ?_, by linarith, by linarith⟩
  · show round2R (v_escape_kms ((1:ℚ) : ℝ) ((1:ℚ) : ℝ)) = _
    simp only [Rat.cast_one]
    exact round_velocidad_tierra
  · show round2R (v_escape_kms ((1:ℚ) : ℝ) ((1:ℚ) : ℝ) / V_ESCAPE_TIERRA) = _
    simp only [Rat.cast_one]
    exact round_ratio_tierra
  · show dificultad_escape (v_escape_kms ((1:ℚ) : ℝ) ((1:ℚ) : ℝ)) = _
    simp only [Rat.cast_one]
    exact dificultad_tierra

end AstroExplorer
